import Mathlib

/-!
Verification of the RepoMind spatial-layout subsystem.

The viewport fitter is embedded from the `useD3Zoom` hook and its `resetZoom`
closure in `src/components/ChatInterface.tsx`; the dependency-graph model is
embedded from the `DependencyGraph` component (`src/unnamed/part_000`).
JavaScript numbers are modelled by `JsNum`: exact rationals extended with the
IEEE special values `Infinity`, `-Infinity` and `NaN`, since the reset path
can divide by a zero-sized bounding box.  A zero denominator is treated as
IEEE `+0` (the value `getBBox` reports for empty content).
-/

namespace RepoMind

/-- A JavaScript number: a finite value (modelled exactly as a rational),
`Infinity`, `-Infinity`, or `NaN`. -/
inductive JsNum where
  | fin (q : ℚ)
  | posInf
  | negInf
  | nan
deriving DecidableEq, Repr

namespace JsNum

/-- JS unary minus. -/
def jneg : JsNum → JsNum
  | fin q => fin (-q)
  | posInf => negInf
  | negInf => posInf
  | nan => nan

/-- JS subtraction. -/
def jsub : JsNum → JsNum → JsNum
  | nan, _ => nan
  | _, nan => nan
  | fin a, fin b => fin (a - b)
  | fin _, posInf => negInf
  | fin _, negInf => posInf
  | posInf, fin _ => posInf
  | posInf, posInf => nan
  | posInf, negInf => posInf
  | negInf, fin _ => negInf
  | negInf, posInf => negInf
  | negInf, negInf => nan

/-- JS multiplication (`0 * Infinity = NaN`). -/
def jmul : JsNum → JsNum → JsNum
  | nan, _ => nan
  | _, nan => nan
  | fin a, fin b => fin (a * b)
  | fin a, posInf => if 0 < a then posInf else if a < 0 then negInf else nan
  | fin a, negInf => if 0 < a then negInf else if a < 0 then posInf else nan
  | posInf, fin b => if 0 < b then posInf else if b < 0 then negInf else nan
  | negInf, fin b => if 0 < b then negInf else if b < 0 then posInf else nan
  | posInf, posInf => posInf
  | posInf, negInf => negInf
  | negInf, posInf => negInf
  | negInf, negInf => posInf

/-- JS division; a zero denominator is IEEE `+0`, so `a / 0` is `Infinity`
for `a > 0`, `-Infinity` for `a < 0`, and `NaN` for `a = 0`. -/
def jdiv : JsNum → JsNum → JsNum
  | nan, _ => nan
  | _, nan => nan
  | fin a, fin b =>
      if b = 0 then (if 0 < a then posInf else if a < 0 then negInf else nan)
      else fin (a / b)
  | fin _, posInf => fin 0
  | fin _, negInf => fin 0
  | posInf, fin b => if 0 ≤ b then posInf else negInf
  | negInf, fin b => if 0 ≤ b then negInf else posInf
  | posInf, posInf => nan
  | posInf, negInf => nan
  | negInf, posInf => nan
  | negInf, negInf => nan

/-- JS `Math.min`: `NaN` if either argument is `NaN`. -/
def jmin : JsNum → JsNum → JsNum
  | nan, _ => nan
  | _, nan => nan
  | negInf, _ => negInf
  | _, negInf => negInf
  | posInf, b => b
  | a, posInf => a
  | fin a, fin b => fin (if a ≤ b then a else b)

@[simp] theorem jsub_fin_fin (a b : ℚ) : jsub (fin a) (fin b) = fin (a - b) := rfl

@[simp] theorem jmul_fin_fin (a b : ℚ) : jmul (fin a) (fin b) = fin (a * b) := rfl

@[simp] theorem jmin_fin_fin (a b : ℚ) : jmin (fin a) (fin b) = fin (min a b) := by
  simp [jmin, min_def]

@[simp] theorem jdiv_fin_fin (a b : ℚ) (h : b ≠ 0) : jdiv (fin a) (fin b) = fin (a / b) := by
  simp [jdiv, h]

end JsNum

open JsNum

/-- The result of `getBBox()` on the rendered content group (`graphBox` in the
source): origin and non-negative extents. -/
structure GraphBox where
  x : ℚ
  y : ℚ
  width : ℚ
  height : ℚ
deriving DecidableEq, Repr

/-- A d3 zoom transform `{k, x, y}` as produced by
`zoomIdentity.translate(x, y).scale(k)`. -/
structure ViewTransform where
  scale : JsNum
  translateX : JsNum
  translateY : JsNum
deriving DecidableEq, Repr

/-- The padding constant of the initial-fit computation (`const padding = 40`
in `useD3Zoom`; the `resetZoom` closure writes the literal `40`). -/
def padding : ℚ := 40

/-- The d3 transform left on a freshly attached zoom behavior before any
transform has been applied: `zoomIdentity`. -/
def zoomIdentityT : ViewTransform := ⟨.fin 1, .fin 0, .fin 0⟩

/-- The initial fit of `useD3Zoom` (ChatInterface.tsx, step 6): when the
content box has zero width or height the source returns early without
applying any transform, so the resting transform stays `zoomIdentity`;
otherwise `scale = min((parentWidth - padding)/graphBox.width,
(parentHeight - padding)/graphBox.height)`, capped at 1, and the centering
translation `x = (parentWidth - graphBox.width*initialScale)/2 -
graphBox.x*initialScale` (symmetric in y). -/
def initialTransform (parentWidth parentHeight : ℚ) (graphBox : GraphBox) : ViewTransform :=
  if graphBox.width = 0 ∨ graphBox.height = 0 then
    zoomIdentityT
  else
    let scale := jmin (jdiv (.fin (parentWidth - padding)) (.fin graphBox.width))
                      (jdiv (.fin (parentHeight - padding)) (.fin graphBox.height))
    let initialScale := jmin scale (.fin 1)
    let x := jsub (jdiv (jsub (.fin parentWidth) (jmul (.fin graphBox.width) initialScale))
                        (.fin 2))
                  (jmul (.fin graphBox.x) initialScale)
    let y := jsub (jdiv (jsub (.fin parentHeight) (jmul (.fin graphBox.height) initialScale))
                        (.fin 2))
                  (jmul (.fin graphBox.y) initialScale)
    ⟨initialScale, x, y⟩

/-- The transform computed by the `resetZoom` closure (ChatInterface.tsx):
the same arithmetic as the initial fit, but with no zero-size guard. -/
def resetZoom (parentWidth parentHeight : ℚ) (graphBox : GraphBox) : ViewTransform :=
  let scale := jmin (jdiv (.fin (parentWidth - 40)) (.fin graphBox.width))
                    (jdiv (.fin (parentHeight - 40)) (.fin graphBox.height))
  let initialScale := jmin scale (.fin 1)
  let x := jsub (jdiv (jsub (.fin parentWidth) (jmul (.fin graphBox.width) initialScale))
                      (.fin 2))
                (jmul (.fin graphBox.x) initialScale)
  let y := jsub (jdiv (jsub (.fin parentHeight) (jmul (.fin graphBox.height) initialScale))
                      (.fin 2))
                (jmul (.fin graphBox.y) initialScale)
  ⟨initialScale, x, y⟩

/-- The fit formula as the amended specification states it, in exact rational
arithmetic: padding subtracted once from each container dimension, scale
capped at 1, centering translation as in the spec. -/
def specFitOnce (parentWidth parentHeight : ℚ) (graphBox : GraphBox) : ViewTransform :=
  let s := min (min ((parentWidth - padding) / graphBox.width)
                   ((parentHeight - padding) / graphBox.height)) 1
  ⟨.fin s,
   .fin ((parentWidth - graphBox.width * s) / 2 - graphBox.x * s),
   .fin ((parentHeight - graphBox.height * s) / 2 - graphBox.y * s)⟩

/-- The `scaleExtent([0.1, 8])` bounds configured on the zoom behavior. -/
def scaleExtentMin : ℚ := 1 / 10

/-- Upper bound of `scaleExtent([0.1, 8])`. -/
def scaleExtentMax : ℚ := 8

/-- Modelled from the spec: the d3 zoom behavior's enforcement of
`scaleExtent` on user wheel/pinch gestures (the clamping itself happens
inside the d3 library, not in this repository): a requested gesture scale is
clamped into `[scaleExtentMin, scaleExtentMax]`. -/
def constrainScale (k : ℚ) : ℚ := max scaleExtentMin (min scaleExtentMax k)

/-- The node category union type of `types.ts` (`DependencyNode.category`). -/
inductive Category where
  | Language
  | Framework
  | Library
  | Tool
  | Database
  | Core
deriving DecidableEq, Repr

/-- `DependencyNode` from `types.ts`: a unique string id and a category. -/
structure DependencyNode where
  id : String
  category : Category
deriving DecidableEq, Repr

/-- `DependencyLink` from `types.ts`: source and target node ids. -/
structure DependencyLink where
  source : String
  target : String
deriving DecidableEq, Repr

/-- `nodeIds` in `DependencyGraph`: the set of ids of the (cloned) simulation
nodes, kept as the underlying list. -/
def nodeIds (nodes : List DependencyNode) : List String := nodes.map (·.id)

/-- `simulationLinks` in `DependencyGraph`: the input links whose source and
target both occur in the node id set. -/
def simulationLinks (nodes : List DependencyNode) (links : List DependencyLink) :
    List DependencyLink :=
  links.filter fun l => (nodeIds nodes).contains l.source && (nodeIds nodes).contains l.target

/-- The spec's error taxonomy entry for `GraphModel.build`. -/
inductive ValidationError where
  | duplicateNodeId (id : String)
deriving DecidableEq, Repr

/-- The data-preparation step of `DependencyGraph` (clone the nodes, filter
the links), embedded into the spec's `Except ValidationError` frame so that
the spec's failure claims can be stated.  The source performs no validation
whatsoever and cannot fail, so every input maps to `.ok`. -/
def build (nodes : List DependencyNode) (links : List DependencyLink) :
    Except ValidationError (List DependencyNode × List DependencyLink) :=
  .ok (nodes, simulationLinks nodes links)

/-- The edge set the spec describes: the sublist of input edges whose source
id and target id both occur in the node set. -/
def specRetainedEdges (nodes : List DependencyNode) (links : List DependencyLink) :
    List DependencyLink :=
  links.filter fun l => decide (l.source ∈ nodeIds nodes ∧ l.target ∈ nodeIds nodes)

/-- The state the `DependencyGraph` render effect owns: what is drawn on the
SVG surface and whether a simulation is live. -/
structure GraphViewState where
  drawnNodes : List DependencyNode
  drawnLinks : List DependencyLink
  simulationActive : Bool
deriving DecidableEq, Repr

/-- The `DependencyGraph` render effect: with an empty node list it returns
before touching anything (`if (!svgRef.current || !nodes.length) return`
comes before `svg.selectAll("*").remove()`); otherwise it clears the surface,
prepares the cloned nodes and filtered links, and starts a fresh simulation. -/
def runGraphEffect (nodes : List DependencyNode) (links : List DependencyLink)
    (prev : GraphViewState) : GraphViewState :=
  if nodes.isEmpty then prev
  else
    let cleared : GraphViewState :=
      { drawnNodes := [], drawnLinks := [], simulationActive := false }
    { cleared with
      drawnNodes := nodes
      drawnLinks := simulationLinks nodes links
      simulationActive := true }

/-- The bounding-box constraint the tick handler applies to every node after
every tick: `d.x = max(20, min(width - 20, d.x))`, symmetric in y. -/
def clampPos (width height : ℚ) (p : ℚ × ℚ) : ℚ × ℚ :=
  (max 20 (min (width - 20) p.1), max 20 (min (height - 20) p.2))

/-- A node's position across ticks: the d3 force pass (library code, modelled
as an arbitrary per-tick update `forcePass`) followed by the tick handler's
clamp. -/
def tickPositions (forcePass : ℕ → ℚ × ℚ → ℚ × ℚ) (width height : ℚ) (p0 : ℚ × ℚ) :
    ℕ → ℚ × ℚ
  | 0 => p0
  | n + 1 => clampPos width height (forcePass n (tickPositions forcePass width height p0 n))

/-- A simulation node as the drag handlers see it: position, velocity, and
the optional fixed (pin) coordinates `fx`/`fy`. -/
structure SimNode where
  x : ℚ
  y : ℚ
  vx : ℚ
  vy : ℚ
  fx : Option ℚ
  fy : Option ℚ
deriving DecidableEq, Repr

/-- Modelled from the spec: one integration step of the force simulator for a
single node under a given net force (the d3 force pass itself is library
code).  An unpinned coordinate gets velocity `force × alpha` and moves by it;
a pinned coordinate is held at its pin with velocity zero. -/
def tickNode (alpha : ℚ) (force : ℚ × ℚ) (nd : SimNode) : SimNode :=
  { x := match nd.fx with | some px => px | none => nd.x + force.1 * alpha
    y := match nd.fy with | some py => py | none => nd.y + force.2 * alpha
    vx := match nd.fx with | some _ => 0 | none => force.1 * alpha
    vy := match nd.fy with | some _ => 0 | none => force.2 * alpha
    fx := nd.fx
    fy := nd.fy }

/-- Iterated ticks with per-tick alphas and net forces. -/
def ticksFrom (alphas : ℕ → ℚ) (forces : ℕ → ℚ × ℚ) (nd : SimNode) : ℕ → SimNode
  | 0 => nd
  | n + 1 => tickNode (alphas n) (forces n) (ticksFrom alphas forces nd n)

/-- Modelled from the spec: d3's per-tick alpha update toward the configured
target, `alpha += (alphaTarget - alpha) × rate`, with a decay rate in (0,1). -/
def alphaStep (rate alpha target : ℚ) : ℚ := alpha + (target - alpha) * rate

/-- The drag-relevant simulation state: the dragged subject plus the
simulation's alpha target and running flag. -/
structure DragSim where
  subject : SimNode
  alphaTarget : ℚ
  running : Bool
deriving DecidableEq, Repr

/-- `dragstarted`: when no other gesture is active, `alphaTarget(0.3)` and
`restart()`; pin the subject at its current position. -/
def dragstarted (active : Bool) (s : DragSim) : DragSim :=
  let t := if active then s else { s with alphaTarget := 3 / 10, running := true }
  { t with subject := { t.subject with fx := some t.subject.x, fy := some t.subject.y } }

/-- `dragged`: move the pin to the pointer position. -/
def dragged (eventX eventY : ℚ) (s : DragSim) : DragSim :=
  { s with subject := { s.subject with fx := some eventX, fy := some eventY } }

/-- `dragended`: when no other gesture is active, `alphaTarget(0)`; release
the pin. -/
def dragended (active : Bool) (s : DragSim) : DragSim :=
  let t := if active then s else { s with alphaTarget := 0 }
  { t with subject := { t.subject with fx := none, fy := none } }

/-- Modelled from the spec: alpha decays geometrically per tick with factor
`1 - decay`, starting from the initial alpha of 1. -/
def alphaAt (decay : ℚ) (n : ℕ) : ℚ := (1 - decay) ^ n

/-- Simulator phases; in `Stopped` no further ticks run. -/
inductive SimPhase where
  | Running
  | Stopped
deriving DecidableEq, Repr

/-- Modelled from the spec: the simulator is `Stopped` once alpha has fallen
below the stop threshold `alphaMin`, halting further ticks. -/
def simPhase (decay alphaMin : ℚ) (n : ℕ) : SimPhase :=
  if alphaAt decay n < alphaMin then .Stopped else .Running

/-- A pinned node keeps its pin and, from the first tick on, sits exactly at
the pinned coordinates. -/
theorem ticksFrom_pinned (alphas : ℕ → ℚ) (forces : ℕ → ℚ × ℚ) (nd : SimNode)
    (px py : ℚ) (hx : nd.fx = some px) (hy : nd.fy = some py) (n : ℕ) :
    (ticksFrom alphas forces nd n).fx = some px ∧
    (ticksFrom alphas forces nd n).fy = some py ∧
    (1 ≤ n → (ticksFrom alphas forces nd n).x = px ∧ (ticksFrom alphas forces nd n).y = py) := by
  induction n with
  | zero => exact ⟨hx, hy, fun h => absurd h (by omega)⟩
  | succ m ih =>
    obtain ⟨ihx, ihy, _⟩ := ih
    refine ⟨?_, ?_, fun _ => ⟨?_, ?_⟩⟩ <;> simp [ticksFrom, tickNode, ihx, ihy]

/-- C1: the claim's fit formula subtracts the padding twice; the source
subtracts it once, so on the claim's own example the produced transform is
`{scale 9/10, x 220, y 20}`, not the claimed `{scale 4/5, x 240, y 40}`. -/
theorem c1_fit_example_counterexample :
    initialTransform 800 400 ⟨0, 0, 400, 400⟩ ≠ ⟨.fin (4/5), .fin 240, .fin 40⟩ ∧
    initialTransform 800 400 ⟨0, 0, 400, 400⟩ = ⟨.fin (9/10), .fin 220, .fin 20⟩ := by
  constructor <;> norm_num [initialTransform, padding, JsNum.jmin, JsNum.jdiv, JsNum.jsub,
    JsNum.jmul]

/-- C1 (amended): for a content box of positive width and height the initial
fit equals the exact rational formula with the padding subtracted once:
`scale = min((parentWidth − padding)/width, (parentHeight − padding)/height)`
capped at 1, and the centering translation of the spec. -/
theorem c1_fit_formula (parentWidth parentHeight : ℚ) (graphBox : GraphBox)
    (hw : 0 < graphBox.width) (hh : 0 < graphBox.height) :
    initialTransform parentWidth parentHeight graphBox =
      specFitOnce parentWidth parentHeight graphBox := by
  unfold initialTransform specFitOnce
  rw [if_neg (by push_neg; exact ⟨hw.ne', hh.ne'⟩)]
  simp [jdiv_fin_fin, hw.ne', hh.ne']

/-- Witness for `c1_fit_formula` at the spec's example measurements. -/
theorem c1_fit_formula_witness :
    (0 : ℚ) < (GraphBox.mk 0 0 400 400).width ∧
    (0 : ℚ) < (GraphBox.mk 0 0 400 400).height ∧
    initialTransform 800 400 ⟨0, 0, 400, 400⟩ = specFitOnce 800 400 ⟨0, 0, 400, 400⟩ :=
  ⟨by norm_num, by norm_num,
    c1_fit_formula 800 400 ⟨0, 0, 400, 400⟩ (by norm_num) (by norm_num)⟩

/-- C4: a zero-width or zero-height content box makes the fit leave the
identity transform `{scale 1, x 0, y 0}` in place (the source returns before
applying any transform, so the zoom behavior's `zoomIdentity` rests). -/
theorem c4_degenerate_box_identity (parentWidth parentHeight : ℚ) (graphBox : GraphBox)
    (h : graphBox.width = 0 ∨ graphBox.height = 0) :
    initialTransform parentWidth parentHeight graphBox = ⟨.fin 1, .fin 0, .fin 0⟩ := by
  unfold initialTransform
  rw [if_pos h]
  rfl

/-- Witness for `c4_degenerate_box_identity` at a zero-width box. -/
theorem c4_degenerate_box_identity_witness :
    ((GraphBox.mk 3 7 0 5).width = 0 ∨ (GraphBox.mk 3 7 0 5).height = 0) ∧
    initialTransform 800 400 ⟨3, 7, 0, 5⟩ = ⟨.fin 1, .fin 0, .fin 0⟩ :=
  ⟨Or.inl rfl, c4_degenerate_box_identity 800 400 ⟨3, 7, 0, 5⟩ (Or.inl rfl)⟩

/-- C5: `resetZoom` has no zero-size guard, so on a degenerate (zero-size)
content box it disagrees with a fresh fit: at container 800×400 and box
`{0,0,0,0}` reset produces `{scale 1, x 400, y 200}` while the fit leaves
the identity `{scale 1, x 0, y 0}`. -/
theorem c5_reset_ne_fit_on_degenerate_box :
    resetZoom 800 400 ⟨0, 0, 0, 0⟩ ≠ initialTransform 800 400 ⟨0, 0, 0, 0⟩ ∧
    resetZoom 800 400 ⟨0, 0, 0, 0⟩ = ⟨.fin 1, .fin 400, .fin 200⟩ := by
  constructor <;> norm_num [resetZoom, initialTransform, zoomIdentityT, padding,
    JsNum.jmin, JsNum.jdiv, JsNum.jsub, JsNum.jmul]

/-- C5 (amended): whenever the content box has positive width and height,
the transform computed by `resetZoom` is exactly the transform a fresh
initial fit computes from the same measurements (and, `resetZoom` being a
pure function of its measurements, two consecutive resets coincide). -/
theorem c5_reset_eq_fit (parentWidth parentHeight : ℚ) (graphBox : GraphBox)
    (hw : 0 < graphBox.width) (hh : 0 < graphBox.height) :
    resetZoom parentWidth parentHeight graphBox =
      initialTransform parentWidth parentHeight graphBox := by
  unfold resetZoom initialTransform
  rw [if_neg (by push_neg; exact ⟨hw.ne', hh.ne'⟩)]
  rfl

/-- Witness for `c5_reset_eq_fit` at a non-degenerate box. -/
theorem c5_reset_eq_fit_witness :
    (0 : ℚ) < (GraphBox.mk 0 0 400 400).width ∧
    (0 : ℚ) < (GraphBox.mk 0 0 400 400).height ∧
    resetZoom 800 400 ⟨0, 0, 400, 400⟩ = initialTransform 800 400 ⟨0, 0, 400, 400⟩ :=
  ⟨by norm_num, by norm_num,
    c5_reset_eq_fit 800 400 ⟨0, 0, 400, 400⟩ (by norm_num) (by norm_num)⟩

/-- C7: the programmatic fit bypasses `scaleExtent`: a 20×20 container with
a 100×100 content box yields scale `-1/5`, which is `≤ 0` and below
`scaleExtentMin = 1/10` — the claimed invariant fails right after the
initial fit. -/
theorem c7_fit_scale_violates_bounds :
    (initialTransform 20 20 ⟨0, 0, 100, 100⟩).scale = .fin (-(1/5)) ∧
    (-(1/5) : ℚ) ≤ 0 ∧ (-(1/5) : ℚ) < scaleExtentMin := by
  refine ⟨?_, by norm_num, by norm_num [scaleExtentMin]⟩
  norm_num [initialTransform, padding, JsNum.jmin, JsNum.jdiv, JsNum.jsub, JsNum.jmul]

/-- C7 (amended): user wheel/pinch gestures do keep the scale inside the
configured `scaleExtent` bounds, hence strictly positive; only the
programmatic fit/reset transforms may escape them. -/
theorem c7_gesture_scale_bounded (k : ℚ) :
    scaleExtentMin ≤ constrainScale k ∧ constrainScale k ≤ scaleExtentMax ∧
    0 < constrainScale k := by
  unfold constrainScale scaleExtentMin scaleExtentMax
  refine ⟨le_max_left _ _, max_le (by norm_num) (min_le_left _ _), ?_⟩
  exact lt_of_lt_of_le (by norm_num) (le_max_left _ _)

/-- C2: the code performs no duplicate-id validation: on a node list with a
duplicated id, `build` succeeds instead of failing with `ValidationError`. -/
theorem c2_duplicate_id_not_rejected :
    ¬ (nodeIds [⟨"a", .Core⟩, ⟨"a", .Core⟩]).Nodup ∧
    (build [⟨"a", .Core⟩, ⟨"a", .Core⟩] []).isOk = true := by
  constructor
  · simp [nodeIds]
  · rfl

/-- C2 (amended): `build` never fails — it contains no validation at all, so
no input (duplicate ids included) produces a `ValidationError`. -/
theorem c2_build_never_fails (nodes : List DependencyNode) (links : List DependencyLink) :
    (build nodes links).isOk = true ∧
    ∀ e : ValidationError, build nodes links ≠ .error e :=
  ⟨rfl, fun _ h => Except.noConfusion h⟩

/-- C3: `build` succeeds on every input, and the simulation edge set is
exactly the sublist of input links whose source and target ids both occur in
the node id set — dangling links are dropped, never an error. -/
theorem c3_dangling_links_filtered (nodes : List DependencyNode) (links : List DependencyLink) :
    (build nodes links).isOk = true ∧
    simulationLinks nodes links = specRetainedEdges nodes links ∧
    List.Sublist (simulationLinks nodes links) links ∧
    ∀ l : DependencyLink, l ∈ simulationLinks nodes links ↔
      l ∈ links ∧ l.source ∈ nodeIds nodes ∧ l.target ∈ nodeIds nodes := by
  refine ⟨rfl, ?_, List.filter_sublist _, ?_⟩
  · unfold simulationLinks specRetainedEdges
    congr 1
    funext l
    simp [List.elem_iff]
  · intro l
    simp [simulationLinks, List.mem_filter, List.elem_iff, and_assoc]

/-- C6: after every tick (so in particular after 500), a node's clamped
position lies in the margin band `[20, dim - 20]` and hence inside the
container bounds, for any per-tick force update. -/
theorem c6_positions_in_bounds (forcePass : ℕ → ℚ × ℚ → ℚ × ℚ) (width height : ℚ)
    (p0 : ℚ × ℚ) (n : ℕ) (hw : 40 ≤ width) (hh : 40 ≤ height) (hn : 1 ≤ n) :
    (20 ≤ (tickPositions forcePass width height p0 n).1 ∧
      (tickPositions forcePass width height p0 n).1 ≤ width - 20 ∧
      20 ≤ (tickPositions forcePass width height p0 n).2 ∧
      (tickPositions forcePass width height p0 n).2 ≤ height - 20) ∧
    (0 ≤ (tickPositions forcePass width height p0 n).1 ∧
      (tickPositions forcePass width height p0 n).1 ≤ width ∧
      0 ≤ (tickPositions forcePass width height p0 n).2 ∧
      (tickPositions forcePass width height p0 n).2 ≤ height) := by
  obtain ⟨m, rfl⟩ : ∃ m, n = m + 1 := ⟨n - 1, by omega⟩
  rw [show tickPositions forcePass width height p0 (m + 1) =
      clampPos width height (forcePass m (tickPositions forcePass width height p0 m)) from rfl]
  set q := forcePass m (tickPositions forcePass width height p0 m)
  have hx1 : 20 ≤ (clampPos width height q).1 := le_max_left _ _
  have hx2 : (clampPos width height q).1 ≤ width - 20 :=
    max_le (by linarith) (min_le_left _ _)
  have hy1 : 20 ≤ (clampPos width height q).2 := le_max_left _ _
  have hy2 : (clampPos width height q).2 ≤ height - 20 :=
    max_le (by linarith) (min_le_left _ _)
  exact ⟨⟨hx1, hx2, hy1, hy2⟩,
    ⟨by linarith, by linarith, by linarith, by linarith⟩⟩

/-- Witness for `c6_positions_in_bounds`: a 600×400 container, a divergent
force update and a far-out start, after 500 ticks. -/
theorem c6_positions_in_bounds_witness :
    (40 : ℚ) ≤ 600 ∧ (40 : ℚ) ≤ 400 ∧ 1 ≤ 500 ∧
    ((20 ≤ (tickPositions (fun _ p => (p.1 + 1000, p.2 - 1000)) 600 400 (1000000, -1000000) 500).1 ∧
      (tickPositions (fun _ p => (p.1 + 1000, p.2 - 1000)) 600 400 (1000000, -1000000) 500).1 ≤ 600 - 20 ∧
      20 ≤ (tickPositions (fun _ p => (p.1 + 1000, p.2 - 1000)) 600 400 (1000000, -1000000) 500).2 ∧
      (tickPositions (fun _ p => (p.1 + 1000, p.2 - 1000)) 600 400 (1000000, -1000000) 500).2 ≤ 400 - 20) ∧
     (0 ≤ (tickPositions (fun _ p => (p.1 + 1000, p.2 - 1000)) 600 400 (1000000, -1000000) 500).1 ∧
      (tickPositions (fun _ p => (p.1 + 1000, p.2 - 1000)) 600 400 (1000000, -1000000) 500).1 ≤ 600 ∧
      0 ≤ (tickPositions (fun _ p => (p.1 + 1000, p.2 - 1000)) 600 400 (1000000, -1000000) 500).2 ∧
      (tickPositions (fun _ p => (p.1 + 1000, p.2 - 1000)) 600 400 (1000000, -1000000) 500).2 ≤ 400)) :=
  ⟨by norm_num, by norm_num, by norm_num,
    c6_positions_in_bounds (fun _ p => (p.1 + 1000, p.2 - 1000)) 600 400
      (1000000, -1000000) 500 (by norm_num) (by norm_num) (by norm_num)⟩

/-- C8: the unpin handler does not reheat alpha: `dragended` sets the alpha
target to 0, after which the alpha update strictly decreases a positive
alpha instead of raising it. -/
theorem c8_unpin_does_not_reheat :
    (dragended false ⟨⟨1, 2, 0, 0, some 1, some 2⟩, 3 / 10, true⟩).alphaTarget = 0 ∧
    alphaStep (1 / 2) (3 / 10)
        (dragended false ⟨⟨1, 2, 0, 0, some 1, some 2⟩, 3 / 10, true⟩).alphaTarget
      < 3 / 10 := by
  constructor
  · rfl
  · norm_num [dragended, alphaStep]

/-- C8 (amended): a pinned node sits at its pinned coordinates on every
subsequent tick while an unpinned node keeps moving under the forces; the
pin handler (no other gesture active) sets `alphaTarget` to 0.3, restarts,
and pins the subject in place; the drag handler moves the pin; the unpin
handler sets `alphaTarget` to 0 and releases the pin; alpha then rises
toward 0.3 while pinned (the reheat) and strictly decays after the unpin. -/
theorem c8_pin_holds_unpinned_move (alphas : ℕ → ℚ) (forces : ℕ → ℚ × ℚ)
    (nd : SimNode) (px py : ℚ) (hx : nd.fx = some px) (hy : nd.fy = some py) :
    (∀ n, 1 ≤ n → (ticksFrom alphas forces nd n).x = px ∧
      (ticksFrom alphas forces nd n).y = py) ∧
    (∀ (alpha : ℚ) (f : ℚ × ℚ) (m : SimNode), m.fx = none →
      (tickNode alpha f m).x = m.x + f.1 * alpha) ∧
    (∀ s : DragSim, (dragstarted false s).alphaTarget = 3 / 10 ∧
      (dragstarted false s).running = true ∧
      (dragstarted false s).subject.fx = some s.subject.x ∧
      (dragstarted false s).subject.fy = some s.subject.y) ∧
    (∀ (ex ey : ℚ) (s : DragSim), (dragged ex ey s).subject.fx = some ex ∧
      (dragged ex ey s).subject.fy = some ey) ∧
    (∀ s : DragSim, (dragended false s).alphaTarget = 0 ∧
      (dragended false s).subject.fx = none ∧ (dragended false s).subject.fy = none) ∧
    (∀ rate alpha : ℚ, 0 < rate → alpha < 3 / 10 →
      alpha < alphaStep rate alpha (3 / 10)) ∧
    (∀ rate alpha : ℚ, 0 < rate → 0 < alpha → alphaStep rate alpha 0 < alpha) := by
  refine ⟨fun n hn => (ticksFrom_pinned alphas forces nd px py hx hy n).2.2 hn,
    ?_, ?_, ?_, ?_, ?_, ?_⟩
  · intro alpha f m hm
    simp [tickNode, hm]
  · intro s
    refine ⟨rfl, rfl, rfl, rfl⟩
  · intro ex ey s
    exact ⟨rfl, rfl⟩
  · intro s
    exact ⟨rfl, rfl, rfl⟩
  · intro rate alpha h1 h2
    unfold alphaStep
    nlinarith
  · intro rate alpha h1 h2
    unfold alphaStep
    nlinarith

/-- Witness for `c8_pin_holds_unpinned_move` at a node pinned at (5, 7). -/
theorem c8_pin_holds_witness :
    (SimNode.mk 0 0 0 0 (some 5) (some 7)).fx = some 5 ∧
    (SimNode.mk 0 0 0 0 (some 5) (some 7)).fy = some 7 ∧
    ((∀ n, 1 ≤ n →
      (ticksFrom (fun _ => (1 / 2 : ℚ)) (fun _ => ((1 : ℚ), (1 : ℚ)))
        ⟨0, 0, 0, 0, some 5, some 7⟩ n).x = 5 ∧
      (ticksFrom (fun _ => (1 / 2 : ℚ)) (fun _ => ((1 : ℚ), (1 : ℚ)))
        ⟨0, 0, 0, 0, some 5, some 7⟩ n).y = 7) ∧
    (∀ (alpha : ℚ) (f : ℚ × ℚ) (m : SimNode), m.fx = none →
      (tickNode alpha f m).x = m.x + f.1 * alpha) ∧
    (∀ s : DragSim, (dragstarted false s).alphaTarget = 3 / 10 ∧
      (dragstarted false s).running = true ∧
      (dragstarted false s).subject.fx = some s.subject.x ∧
      (dragstarted false s).subject.fy = some s.subject.y) ∧
    (∀ (ex ey : ℚ) (s : DragSim), (dragged ex ey s).subject.fx = some ex ∧
      (dragged ex ey s).subject.fy = some ey) ∧
    (∀ s : DragSim, (dragended false s).alphaTarget = 0 ∧
      (dragended false s).subject.fx = none ∧ (dragended false s).subject.fy = none) ∧
    (∀ rate alpha : ℚ, 0 < rate → alpha < 3 / 10 →
      alpha < alphaStep rate alpha (3 / 10)) ∧
    (∀ rate alpha : ℚ, 0 < rate → 0 < alpha → alphaStep rate alpha 0 < alpha)) :=
  ⟨rfl, rfl,
    c8_pin_holds_unpinned_move (fun _ => (1 / 2 : ℚ)) (fun _ => ((1 : ℚ), (1 : ℚ)))
      ⟨0, 0, 0, 0, some 5, some 7⟩ 5 7 rfl rfl⟩

/-- C9: with any geometric decay factor in (0,1) and any positive stop
threshold, the simulator reaches `Stopped` within a bounded number of ticks
and stays there. -/
theorem c9_termination (decay alphaMin : ℚ)
    (hd0 : 0 < decay) (hd1 : decay < 1) (hmin : 0 < alphaMin) :
    ∃ N : ℕ, ∀ n : ℕ, N ≤ n → simPhase decay alphaMin n = .Stopped := by
  obtain ⟨N, hN⟩ := exists_pow_lt_of_lt_one hmin (show (1 : ℚ) - decay < 1 by linarith)
  refine ⟨N, fun n hn => ?_⟩
  unfold simPhase
  rw [if_pos]
  calc alphaAt decay n ≤ alphaAt decay N := by
        unfold alphaAt
        exact pow_le_pow_of_le_one (by linarith) (by linarith) hn
    _ < alphaMin := hN

/-- Witness for `c9_termination` at decay 1/2 and threshold 1/1000. -/
theorem c9_termination_witness :
    (0 : ℚ) < 1 / 2 ∧ (1 / 2 : ℚ) < 1 ∧ (0 : ℚ) < 1 / 1000 ∧
    ∃ N : ℕ, ∀ n : ℕ, N ≤ n → simPhase (1 / 2) (1 / 1000) n = .Stopped :=
  ⟨by norm_num, by norm_num, by norm_num,
    c9_termination (1 / 2) (1 / 1000) (by norm_num) (by norm_num) (by norm_num)⟩

/-- C10: with an empty node list the render effect leaves the previous state
untouched — nothing is cleared, no simulation is constructed. -/
theorem c10_empty_nodes_leaves_state (links : List DependencyLink) (prev : GraphViewState) :
    runGraphEffect [] links prev = prev ∧
    (runGraphEffect [] links prev).drawnNodes = prev.drawnNodes ∧
    (runGraphEffect [] links prev).drawnLinks = prev.drawnLinks ∧
    (runGraphEffect [] links prev).simulationActive = prev.simulationActive :=
  ⟨rfl, rfl, rfl, rfl⟩

end RepoMind
